import Mathlib

/-!
# Verification of the Bybit webhook relay (bybit_a101_ethusdt.py / bybit_a203_ethusdt.py)

A shallow embedding of the two FastAPI webhook servers of the repository.
Python floats are modelled as exact rationals (ℚ); Python dicts keyed by
strategy id are modelled as functions `String → Option _`; the side-effecting
`place_order` network call is modelled by recording the order request that
would be transmitted; the HMAC-SHA256-hex primitive of Python's `hmac`/
`hashlib` libraries is taken as an abstract function parameter, so the theorems
about signing speak about which key and which byte string are signed.
-/

/-- Python's `round(x, 2)` on an exact rational value: round `x * 100` to the
nearest integer, ties to even (banker's rounding), divide back by 100. -/
def pyRound2 (q : ℚ) : ℚ :=
  let x := q * 100
  let f : ℤ := Int.floor x
  let r := x - (f : ℚ)
  let n : ℤ :=
    if r < 1/2 then f
    else if r > 1/2 then f + 1
    else if f % 2 = 0 then f else f + 1
  (n : ℚ) / 100

/-- Update one key of a string-keyed dictionary (`d[k] = v` in Python). -/
def updMap {α : Type} (m : String → Option α) (k : String) (v : α) :
    String → Option α :=
  fun k' => if k' = k then some v else m k'

namespace A101

/-- `WebhookPayloadData` of bybit_a101_ethusdt.py: `action: str = None`,
`position_size: float = 0`. -/
structure WebhookPayloadData where
  action : Option String
  position_size : ℚ
  deriving DecidableEq, Repr

/-- `WebhookPayload` of bybit_a101_ethusdt.py. Optional fields default to
`None` in the source and are modelled as `Option`. -/
structure WebhookPayload where
  strategy_id : String
  signal_type : String
  equity : Option ℚ
  symbol : Option String
  order_type : Option String
  data : Option WebhookPayloadData
  secret : Option String
  deriving DecidableEq, Repr

/-- The environment-derived configuration of bybit_a101_ethusdt.py:
`MAX_DRAWDOWN` (default 10) and `WEBHOOK_SECRET` (default "abc123xyz"). -/
structure Config where
  maxDrawdownPercent : ℚ
  webhookSecret : String
  deriving DecidableEq, Repr

/-- Default configuration when the environment sets nothing. -/
def defaultConfig : Config :=
  { maxDrawdownPercent := 10, webhookSecret := "abc123xyz" }

/-- The global mutable state of bybit_a101_ethusdt.py: the dict `max_equity`
(strategy id → peak equity) and the dict `strategy_status`
(strategy id → `{"paused": bool}`). -/
structure State where
  maxEquity : String → Option ℚ
  strategyStatus : String → Option Bool

/-- The state at process start: both dicts empty. -/
def initState : State :=
  { maxEquity := fun _ => none, strategyStatus := fun _ => none }

/-- Arguments of a `place_order(symbol, side, qty)` call. -/
structure OrderReq where
  symbol : Option String
  side : String
  qty : ℚ
  deriving DecidableEq, Repr

/-- One of the JSON dictionaries returned by `webhook_handler`. Absent keys
are `none`. -/
structure Response where
  status : String
  reason : Option String := none
  strategyId : Option String := none
  drawdown : Option ℚ := none
  message : Option String := none
  deriving DecidableEq, Repr

/-- The outcome of one `webhook_handler` call: the new global state, the JSON
response (`none` when the handler raises an unhandled exception, which FastAPI
turns into an HTTP 500), and the `place_order` calls it made. -/
structure HandlerResult where
  state : State
  response : Option Response
  orders : List OrderReq

/-- `webhook_handler` of bybit_a101_ethusdt.py (lines 153–205), translated
clause by clause. `float(payload.equity)` raises `TypeError` when `equity` is
`None`; that path is modelled as `response = none` with the state unchanged. -/
def webhookHandler (cfg : Config) (st : State) (p : WebhookPayload) :
    HandlerResult :=
  let sid := p.strategy_id
  if p.secret ≠ some cfg.webhookSecret then
    { state := st,
      response := some { status := "blocked", reason := some "invalid secret",
                         strategyId := some sid },
      orders := [] }
  else if p.signal_type = "equity_update" then
    match p.equity with
    | none => { state := st, response := none, orders := [] }
    | some eq =>
      let maxEq := (st.maxEquity sid).getD 0
      if eq > maxEq then
        { state := { maxEquity := updMap st.maxEquity sid eq,
                     strategyStatus := updMap st.strategyStatus sid false },
          response := some { status := "ok", strategyId := some sid,
                             drawdown := some 0 },
          orders := [] }
      else
        let dd := if maxEq > 0 then (1 - eq / maxEq) * 100 else 0
        if dd ≥ cfg.maxDrawdownPercent then
          { state := { maxEquity := st.maxEquity,
                       strategyStatus := updMap st.strategyStatus sid true },
            response := some { status := "paused",
                               reason := some "MDD exceeded",
                               strategyId := some sid,
                               drawdown := some (pyRound2 dd) },
            orders := [] }
        else
          { state := st,
            response := some { status := "ok", strategyId := some sid,
                               drawdown := some (pyRound2 dd) },
            orders := [] }
  else if p.signal_type = "reset" then
    { state := { maxEquity := st.maxEquity,
                 strategyStatus := updMap st.strategyStatus sid false },
      response := some { status := "reset", strategyId := some sid },
      orders := [] }
  else if (st.strategyStatus sid).getD false then
    { state := st,
      response := some { status := "blocked",
                         reason := some "MDD stop active",
                         strategyId := some sid },
      orders := [] }
  else if (p.signal_type = "entry_long" ∨ p.signal_type = "entry_short")
      ∧ p.data.isSome then
    match p.data with
    | none => { state := st, response := none, orders := [] }
    | some d =>
      let size := d.position_size
      if size = 0 then
        { state := st,
          response := some { status := "ok",
                             message := some "倉量為 0 不處理" },
          orders := [] }
      else
        let side := if d.action = some "buy" then "Buy" else "Sell"
        { state := st,
          response := some { status := "success" },
          orders := [{ symbol := p.symbol, side := side, qty := size }] }
  else
    { state := st,
      response := some { status := "ignored",
                         message := some "無法處理的 webhook" },
      orders := [] }

/-- `manual_reset` of bybit_a101_ethusdt.py (lines 219–225): the returned
`Bool` is `true` for the success HTML page, `false` for the 403 page. -/
def manualReset (cfg : Config) (st : State) (strategyId secret : String) :
    State × Bool :=
  if secret ≠ cfg.webhookSecret then (st, false)
  else
    ({ maxEquity := st.maxEquity,
       strategyStatus := updMap st.strategyStatus strategyId false }, true)

/-- Run `webhook_handler` over a whole sequence of inbound payloads, starting
from a given state, keeping only the evolving global state. -/
def runState (cfg : Config) (st : State) : List WebhookPayload → State
  | [] => st
  | p :: ps => runState cfg (webhookHandler cfg st p).state ps

/-- The JSON body of `place_order` in bybit_a101_ethusdt.py, exactly as
`json.dumps(payload, separators=(",", ":"))` serializes the dict built on
lines 127–134 (insertion order, no whitespace; symbol/side/qty values are
exchange identifiers without JSON-escapable characters). `floatStr` stands
for Python's `str` on a float (`str(qty)`). -/
def orderPayloadStr (floatStr : ℚ → String) (symbol side : String) (qty : ℚ) :
    String :=
  "\x7b\"category\":\"linear\",\"symbol\":\"" ++ symbol ++ "\",\"side\":\""
    ++ side ++ "\",\"orderType\":\"Market\",\"qty\":\"" ++ floatStr qty
    ++ "\",\"timeInForce\":\"IOC\"\x7d"

end A101

/-- The signed HTTP request that `place_order` transmits: authentication
headers plus the raw body string posted as `data=payload_str`. -/
structure BybitRequest where
  apiKey : String
  timestamp : String
  recvWindow : String
  signature : String
  body : String
  deriving DecidableEq, Repr

namespace A101

/-- `place_order` of bybit_a101_ethusdt.py (lines 119–150), up to the network
send: builds the signed request. `hmacHex key msg` stands for
`hmac.new(key.encode(), msg.encode(), hashlib.sha256).hexdigest()`. -/
def placeOrderRequest (hmacHex : String → String → String)
    (floatStr : ℚ → String) (apiKey apiSecret timestamp : String)
    (symbol side : String) (qty : ℚ) : BybitRequest :=
  let recvWindow := "50000"
  let payloadStr := orderPayloadStr floatStr symbol side qty
  let signStr := timestamp ++ apiKey ++ recvWindow ++ payloadStr
  { apiKey := apiKey, timestamp := timestamp, recvWindow := recvWindow,
    signature := hmacHex apiSecret signStr, body := payloadStr }

end A101

/-- Is `p` a prefix of the second character list? -/
def isPrefixCharsOf : List Char → List Char → Bool
  | [], _ => true
  | _ :: _, [] => false
  | a :: as, b :: bs => a = b && isPrefixCharsOf as bs

/-- Does the character list contain `p` as a contiguous sublist? -/
def containsChars (p : List Char) : List Char → Bool
  | [] => isPrefixCharsOf p []
  | c :: cs => isPrefixCharsOf p (c :: cs) || containsChars p cs

/-- Python's `pat in s` on strings: substring containment. -/
def strContainsStr (s pat : String) : Bool :=
  containsChars pat.toList s.toList

/-- Python's `s.startswith(pre)`. -/
def strStartsWithStr (s pre : String) : Bool :=
  isPrefixCharsOf pre.toList s.toList

/-- Python's `s.endswith(post)`. -/
def strEndsWithStr (s post : String) : Bool :=
  isPrefixCharsOf post.toList.reverse s.toList.reverse

/-- Python's `s[:-n]`: drop the last `n` characters. -/
def strDropRight (s : String) (n : Nat) : String :=
  String.mk (s.toList.take (s.toList.length - n))

namespace A203

/-- The JSON body of `place_order` in bybit_a203_ethusdt.py (lines 126–133):
market order without `timeInForce` and without `price`. -/
def orderPayloadStr (floatStr : ℚ → String) (symbol side : String) (qty : ℚ) :
    String :=
  "\x7b\"category\":\"linear\",\"symbol\":\"" ++ symbol ++ "\",\"side\":\""
    ++ side ++ "\",\"orderType\":\"Market\",\"qty\":\"" ++ floatStr qty
    ++ "\"\x7d"

/-- `place_order` of bybit_a203_ethusdt.py (lines 117–146), up to the network
send: receive window "5000", same signing scheme as a101. -/
def placeOrderRequest (hmacHex : String → String → String)
    (floatStr : ℚ → String) (apiKey apiSecret timestamp : String)
    (symbol side : String) (qty : ℚ) : BybitRequest :=
  let recvWindow := "5000"
  let payloadStr := orderPayloadStr floatStr symbol side qty
  let signStr := timestamp ++ apiKey ++ recvWindow ++ payloadStr
  { apiKey := apiKey, timestamp := timestamp, recvWindow := recvWindow,
    signature := hmacHex apiSecret signStr, body := payloadStr }

/-- Arguments of a `place_order(symbol, side, qty)` call in
bybit_a203_ethusdt.py. -/
structure OrderReq where
  symbol : String
  side : String
  qty : ℚ
  deriving DecidableEq, Repr

/-- The fields of the inbound `/tv_webhook` JSON that the handler reads via
`payload.get(...)`. Numeric fields go through `safe_float`, which returns the
default when the value is missing or unparseable; they are modelled as
`Option ℚ` (`none` = missing/unparseable). -/
structure TVPayload where
  secret : String
  strategy_id : String
  order_id : String
  trigger_type : String
  comment : String
  contracts : Option ℚ
  symbol : String
  price : Option ℚ
  capital_percent : Option ℚ
  time : String
  deriving DecidableEq, Repr

/-- The decision-relevant fields of the record `tv_webhook` appends to
`log/log.json` (lines 339–357). -/
structure TVLogEntry where
  strategy_id : String
  event : String
  contracts : ℚ
  equity : ℚ
  retMsg : Option String
  price : ℚ
  qty : ℚ
  deriving DecidableEq, Repr

/-- The outcome of one `/tv_webhook` call: the JSON status returned to the
caller, the new contents of the event log, the `place_order` calls made, and
the computed quantity / recorded `ret_msg`. -/
structure TVResult where
  status : String
  log : List TVLogEntry
  orders : List OrderReq
  qty : ℚ := 0
  retMsg : Option String := none
  deriving DecidableEq, Repr

/-- `if symbol.endswith(".P"): symbol = symbol[:-2]` (line 259). -/
def stripSymbolSuffix (s : String) : String :=
  if strEndsWithStr s ".P" then strDropRight s 2 else s

/-- `tv_webhook` of bybit_a203_ethusdt.py (lines 246–374), translated clause
by clause. `equity` is the account balance that the handler fetches from the
exchange (network I/O, lines 269–304, with environment fallbacks), passed in
as a parameter; `log` is the current contents of `log/log.json`. When a real
order is placed the exchange's `retMsg` is external and modelled as `none`. -/
def tvWebhook (webhookSecret : String) (equity : ℚ) (log : List TVLogEntry)
    (p : TVPayload) : TVResult :=
  if p.secret ≠ webhookSecret then
    { status := "unauthorized", log := log, orders := [] }
  else
    let symbol := stripSymbolSuffix p.symbol
    let price := p.price.getD 0
    let capitalPercent := p.capital_percent.getD 0
    let isEntry := strStartsWithStr p.order_id "entry_"
    let contracts := p.contracts.getD 0
    let entry : ℚ × Option String × List OrderReq :=
      if isEntry ∧ price > 0 ∧ capitalPercent > 0 then
        let qty := pyRound2 (equity * capitalPercent / 100 / price)
        if qty ≥ 0.01 then
          let side := if strContainsStr p.order_id "long" then "Buy" else "Sell"
          (qty, none, [{ symbol := symbol, side := side, qty := qty }])
        else
          (qty, some "qty too small", [])
      else
        (0, some (if isEntry then "invalid price/cap_percent" else "not entry"),
         [])
    let qty := entry.1
    let retMsg := entry.2.1
    let entryOrders := entry.2.2
    let exitOrders : List OrderReq :=
      if ¬isEntry ∧ contracts > 0 then
        [{ symbol := symbol,
           side := if strContainsStr p.order_id "_short" then "Buy" else "Sell",
           qty := contracts }]
      else []
    let newLog := log ++
      [{ strategy_id := p.strategy_id, event := p.order_id,
         contracts := contracts, equity := equity, retMsg := retMsg,
         price := price, qty := qty }]
    { status := "ok", log := newLog, orders := entryOrders ++ exitOrders,
      qty := qty, retMsg := retMsg }

/-- `WebhookPayloadData` of bybit_a203_ethusdt.py: both fields required. -/
structure WebhookPayloadData where
  action : String
  position_size : ℚ
  deriving DecidableEq, Repr

/-- `WebhookPayload` of bybit_a203_ethusdt.py. -/
structure WebhookPayload where
  strategy_id : String
  signal_type : String
  time : String
  trigger_type : Option String
  equity : Option ℚ
  symbol : Option String
  order_type : Option String
  data : Option WebhookPayloadData
  secret : Option String
  deriving DecidableEq, Repr

/-- The JSON response of a203's `/webhook`. -/
structure WebhookResponse where
  status : String
  strategy_id : String
  deriving DecidableEq, Repr

/-- The decision-relevant columns of the Google-Sheets row that a203's
`/webhook` emits. -/
structure SheetRow where
  strategy_id : String
  event : String
  equity : Option ℚ
  order_action : String
  contracts : Option ℚ
  deriving DecidableEq, Repr

/-- `webhook_handler` of bybit_a203_ethusdt.py (lines 437–474): it unpacks the
payload, writes one spreadsheet row, and returns `{"status": "ok", ...}`. It
reads no secret, touches no strategy state, and calls no order function. -/
def webhookHandler (p : WebhookPayload) : WebhookResponse × SheetRow :=
  let orderAction := match p.data with
    | some d => d.action
    | none => ""
  ({ status := "ok", strategy_id := p.strategy_id },
   { strategy_id := p.strategy_id, event := p.signal_type, equity := p.equity,
     order_action := orderAction,
     contracts := p.data.map fun d => d.position_size })

end A203

/-- The drawdown percentage exactly as the spec words it:
`(peak_equity - equity) / peak_equity * 100`, with drawdown 0 when
`peak_equity` is 0. A spec-side definition, to be compared with the code's
`(1 - eq / max_eq) * 100` expression. -/
def specDrawdownPct (peak eq : ℚ) : ℚ :=
  if peak = 0 then 0 else (peak - eq) / peak * 100

/-! ## Theorems for the claims -/

/-- C1: for every order placement (in both files), the signature attached to
the outbound request is the hex HMAC-SHA256, keyed by the API secret, of the
concatenation of the timestamp string, the API key, the receive-window string,
and the exact payload string transmitted as the request body. -/
theorem c1_signature_over_transmitted_body
    (hmacHex : String → String → String) (floatStr : ℚ → String)
    (apiKey apiSecret timestamp symbol side : String) (qty : ℚ) :
    (A101.placeOrderRequest hmacHex floatStr apiKey apiSecret timestamp
        symbol side qty).signature
      = hmacHex apiSecret (timestamp ++ apiKey
          ++ (A101.placeOrderRequest hmacHex floatStr apiKey apiSecret
                timestamp symbol side qty).recvWindow
          ++ (A101.placeOrderRequest hmacHex floatStr apiKey apiSecret
                timestamp symbol side qty).body)
    ∧ (A203.placeOrderRequest hmacHex floatStr apiKey apiSecret timestamp
        symbol side qty).signature
      = hmacHex apiSecret (timestamp ++ apiKey
          ++ (A203.placeOrderRequest hmacHex floatStr apiKey apiSecret
                timestamp symbol side qty).recvWindow
          ++ (A203.placeOrderRequest hmacHex floatStr apiKey apiSecret
                timestamp symbol side qty).body) :=
  ⟨rfl, rfl⟩

/-- C2: while a strategy is paused, any order-intent signal (any signal that
is neither `equity_update` nor `reset`, e.g. `entry_long`/`entry_short`) is
answered `blocked` with reason "MDD stop active", no order is placed, and the
state — hence the pause — is left unchanged. -/
theorem c2_paused_blocks_order_intent (cfg : A101.Config) (st : A101.State)
    (p : A101.WebhookPayload)
    (hsec : p.secret = some cfg.webhookSecret)
    (hne1 : p.signal_type ≠ "equity_update")
    (hne2 : p.signal_type ≠ "reset")
    (hp : (st.strategyStatus p.strategy_id).getD false = true) :
    A101.webhookHandler cfg st p =
      { state := st,
        response := some { status := "blocked",
                           reason := some "MDD stop active",
                           strategyId := some p.strategy_id },
        orders := [] } := by
  simp [A101.webhookHandler, hsec, hne1, hne2, hp]

/-- Witness for C2: a concrete paused strategy and a concrete `entry_long`
signal. -/
theorem c2_witness :
    A101.webhookHandler A101.defaultConfig
      { maxEquity := fun _ => none,
        strategyStatus := updMap (fun _ => none) "S1" true }
      { strategy_id := "S1", signal_type := "entry_long", equity := none,
        symbol := some "ETHUSDT", order_type := some "market",
        data := some { action := some "buy", position_size := 1 },
        secret := some "abc123xyz" } =
      { state := { maxEquity := fun _ => none,
                   strategyStatus := updMap (fun _ => none) "S1" true },
        response := some { status := "blocked",
                           reason := some "MDD stop active",
                           strategyId := some "S1" },
        orders := [] } :=
  c2_paused_blocks_order_intent _ _ _ rfl (by decide) (by decide) (by decide)

/-- C4: an `equity_update` whose equity is strictly above the recorded peak
(default 0) raises the peak to that equity, unconditionally clears the paused
flag, and answers `ok` with drawdown 0. -/
theorem c4_new_high_clears_pause (cfg : A101.Config) (st : A101.State)
    (p : A101.WebhookPayload) (eq : ℚ)
    (hsec : p.secret = some cfg.webhookSecret)
    (hty : p.signal_type = "equity_update")
    (heq : p.equity = some eq)
    (hgt : (st.maxEquity p.strategy_id).getD 0 < eq) :
    A101.webhookHandler cfg st p =
      { state := { maxEquity := updMap st.maxEquity p.strategy_id eq,
                   strategyStatus :=
                     updMap st.strategyStatus p.strategy_id false },
        response := some { status := "ok", strategyId := some p.strategy_id,
                           drawdown := some 0 },
        orders := [] } := by
  simp [A101.webhookHandler, hsec, hty, heq, hgt]

/-- Witness for C4: a paused strategy with peak 100 receives equity 150 and
comes back Active with peak 150 and drawdown 0. -/
theorem c4_witness :
    A101.webhookHandler A101.defaultConfig
      { maxEquity := updMap (fun _ => none) "S1" 100,
        strategyStatus := updMap (fun _ => none) "S1" true }
      { strategy_id := "S1", signal_type := "equity_update",
        equity := some 150, symbol := none, order_type := none,
        data := none, secret := some "abc123xyz" } =
      { state := { maxEquity := updMap (updMap (fun _ => none) "S1" 100) "S1" 150,
                   strategyStatus :=
                     updMap (updMap (fun _ => none) "S1" true) "S1" false },
        response := some { status := "ok", strategyId := some "S1",
                           drawdown := some 0 },
        orders := [] } :=
  c4_new_high_clears_pause _ _ _ 150 rfl rfl rfl (by decide)

/-- C7: a `reset` signal (and likewise `manual_reset` with the correct
secret) forces the paused flag to `false` for the given strategy id and
leaves the peak-equity map untouched, in every state. -/
theorem c7_reset_unpauses_and_preserves_peak :
    (∀ (cfg : A101.Config) (st : A101.State) (p : A101.WebhookPayload),
       p.secret = some cfg.webhookSecret → p.signal_type = "reset" →
       A101.webhookHandler cfg st p =
         { state := { maxEquity := st.maxEquity,
                      strategyStatus :=
                        updMap st.strategyStatus p.strategy_id false },
           response := some { status := "reset",
                              strategyId := some p.strategy_id },
           orders := [] })
    ∧ (∀ (cfg : A101.Config) (st : A101.State) (sid : String),
       A101.manualReset cfg st sid cfg.webhookSecret =
         ({ maxEquity := st.maxEquity,
            strategyStatus := updMap st.strategyStatus sid false }, true)) := by
  constructor
  · intro cfg st p hsec hty
    simp [A101.webhookHandler, hsec, hty]
  · intro cfg st sid
    simp [A101.manualReset]

/-- Witness for C7: resetting a concrete paused strategy with recorded peak
100 yields Active with the peak still 100. -/
theorem c7_witness :
    A101.webhookHandler A101.defaultConfig
      { maxEquity := updMap (fun _ => none) "S1" 100,
        strategyStatus := updMap (fun _ => none) "S1" true }
      { strategy_id := "S1", signal_type := "reset", equity := none,
        symbol := none, order_type := none, data := none,
        secret := some "abc123xyz" } =
      { state := { maxEquity := updMap (fun _ => none) "S1" 100,
                   strategyStatus :=
                     updMap (updMap (fun _ => none) "S1" true) "S1" false },
        response := some { status := "reset", strategyId := some "S1" },
        orders := [] } :=
  c7_reset_unpauses_and_preserves_peak.1 _ _ _ rfl rfl

/-- For a non-negative peak, the code's drawdown expression
`(1 - eq / max_eq) * 100 if max_eq > 0 else 0` coincides with the spec's
`(peak - eq) / peak * 100` (0 when the peak is 0). -/
lemma code_drawdown_eq_spec (peak eq : ℚ) (hpeak : 0 ≤ peak) :
    (if peak > 0 then (1 - eq / peak) * 100 else 0) = specDrawdownPct peak eq := by
  rcases eq_or_lt_of_le hpeak with h0 | hpos
  · simp [specDrawdownPct, ← h0]
  · rw [if_pos hpos]
    rw [specDrawdownPct, if_neg (ne_of_gt hpos)]
    field_simp

/-- C3: an `equity_update` whose equity does not exceed the (non-negative)
recorded peak computes the spec's drawdown percentage — 0 when the peak is
0 — pauses the strategy exactly when it reaches the configured threshold, and
otherwise leaves the state unchanged. -/
theorem c3_drawdown_formula_and_pause (cfg : A101.Config) (st : A101.State)
    (p : A101.WebhookPayload) (eq : ℚ)
    (hsec : p.secret = some cfg.webhookSecret)
    (hty : p.signal_type = "equity_update")
    (heq : p.equity = some eq)
    (hpeak : 0 ≤ (st.maxEquity p.strategy_id).getD 0)
    (hle : eq ≤ (st.maxEquity p.strategy_id).getD 0) :
    A101.webhookHandler cfg st p =
      if specDrawdownPct ((st.maxEquity p.strategy_id).getD 0) eq
          ≥ cfg.maxDrawdownPercent then
        { state := { maxEquity := st.maxEquity,
                     strategyStatus :=
                       updMap st.strategyStatus p.strategy_id true },
          response := some { status := "paused", reason := some "MDD exceeded",
                             strategyId := some p.strategy_id,
                             drawdown := some (pyRound2 (specDrawdownPct
                               ((st.maxEquity p.strategy_id).getD 0) eq)) },
          orders := [] }
      else
        { state := st,
          response := some { status := "ok",
                             strategyId := some p.strategy_id,
                             drawdown := some (pyRound2 (specDrawdownPct
                               ((st.maxEquity p.strategy_id).getD 0) eq)) },
          orders := [] } := by
  have hngt : ¬ eq > (st.maxEquity p.strategy_id).getD 0 := not_lt.mpr hle
  rw [← code_drawdown_eq_spec _ _ hpeak]
  simp [A101.webhookHandler, hsec, hty, heq, hngt]

/-- Witness for C3: the spec's own example — peak 100, equity 89, threshold
10 — gives drawdown 11 and a transition to Paused. -/
theorem c3_witness :
    specDrawdownPct 100 89 = 11
    ∧ (A101.webhookHandler A101.defaultConfig
        { maxEquity := updMap (fun _ => none) "S1" 100,
          strategyStatus := fun _ => none }
        { strategy_id := "S1", signal_type := "equity_update",
          equity := some 89, symbol := none, order_type := none,
          data := none, secret := some "abc123xyz" }).response =
      some { status := "paused", reason := some "MDD exceeded",
             strategyId := some "S1", drawdown := some 11 }
    ∧ ((A101.webhookHandler A101.defaultConfig
        { maxEquity := updMap (fun _ => none) "S1" 100,
          strategyStatus := fun _ => none }
        { strategy_id := "S1", signal_type := "equity_update",
          equity := some 89, symbol := none, order_type := none,
          data := none, secret := some "abc123xyz" }).state.strategyStatus
            "S1").getD false = true := by
  have h := c3_drawdown_formula_and_pause A101.defaultConfig
    { maxEquity := updMap (fun _ => none) "S1" 100,
      strategyStatus := fun _ => none }
    { strategy_id := "S1", signal_type := "equity_update",
      equity := some 89, symbol := none, order_type := none,
      data := none, secret := some "abc123xyz" } 89
    rfl rfl rfl (by norm_num [updMap]) (by norm_num [updMap])
  refine ⟨by norm_num [specDrawdownPct], ?_, ?_⟩
  · have h2 := congrArg A101.HandlerResult.response h
    rw [apply_ite A101.HandlerResult.response] at h2
    rw [h2]
    norm_num [specDrawdownPct, updMap, pyRound2, A101.defaultConfig]
  · have h3 := congrArg
      (fun r : A101.HandlerResult => (r.state.strategyStatus "S1").getD false) h
    simp only [apply_ite
      (fun r : A101.HandlerResult => (r.state.strategyStatus "S1").getD false)]
      at h3
    rw [h3]
    norm_num [specDrawdownPct, updMap, A101.defaultConfig]

/-- C5 counterexample: a203's `/webhook` handler performs no secret check —
a payload carrying a wrong secret is answered `{"status": "ok"}`, not a
blocked/unauthorized outcome. -/
theorem c5_counterexample :
    (A203.webhookHandler
      { strategy_id := "S1", signal_type := "entry_long", time := "t",
        trigger_type := none, equity := some 9999, symbol := some "ETHUSDT",
        order_type := some "market",
        data := some { action := "buy", position_size := 1 },
        secret := some "definitely-wrong-secret" }).1.status = "ok"
    ∧ ("ok" : String) ≠ "unauthorized" ∧ ("ok" : String) ≠ "blocked" :=
  ⟨rfl, by decide, by decide⟩

/-- C5 amended: in a101's `/webhook`, a mismatched secret yields the blocked
"invalid secret" response with no strategy-state mutation and no order (the
source does log an `invalid_secret` event before returning, which this state
model does not track); in a203's `/tv_webhook` a mismatched secret returns
`unauthorized` with no order and the event log unchanged; a203's `/webhook`,
by contrast, reads no secret and answers `ok` for every payload (it never
places orders or touches strategy state in any case). -/
theorem c5_amended_secret_check :
    (∀ (cfg : A101.Config) (st : A101.State) (p : A101.WebhookPayload),
       p.secret ≠ some cfg.webhookSecret →
       A101.webhookHandler cfg st p =
         { state := st,
           response := some { status := "blocked",
                              reason := some "invalid secret",
                              strategyId := some p.strategy_id },
           orders := [] })
    ∧ (∀ (ws : String) (eqv : ℚ) (log : List A203.TVLogEntry)
         (p : A203.TVPayload), p.secret ≠ ws →
       A203.tvWebhook ws eqv log p =
         { status := "unauthorized", log := log, orders := [] })
    ∧ (∀ p : A203.WebhookPayload,
       (A203.webhookHandler p).1 =
         { status := "ok", strategy_id := p.strategy_id }) := by
  refine ⟨?_, ?_, ?_⟩
  · intro cfg st p hsec
    simp [A101.webhookHandler, hsec]
  · intro ws eqv log p hsec
    simp [A203.tvWebhook, hsec]
  · intro p
    rfl

/-- Witness for C5 (amended): concrete wrong-secret calls to a101's
`/webhook` and a203's `/tv_webhook` are blocked/unauthorized. -/
theorem c5_witness :
    A101.webhookHandler A101.defaultConfig A101.initState
      { strategy_id := "S1", signal_type := "entry_long", equity := none,
        symbol := some "ETHUSDT", order_type := some "market",
        data := some { action := some "buy", position_size := 1 },
        secret := some "bad" } =
      { state := A101.initState,
        response := some { status := "blocked",
                           reason := some "invalid secret",
                           strategyId := some "S1" },
        orders := [] }
    ∧ A203.tvWebhook "letmein" 1000 []
      { secret := "bad", strategy_id := "S1", order_id := "entry_long_001",
        trigger_type := "", comment := "", contracts := none,
        symbol := "ETHUSDT", price := some 2000, capital_percent := some 10,
        time := "t" } =
      { status := "unauthorized", log := [], orders := [] } :=
  ⟨c5_amended_secret_check.1 _ _ _ (by decide),
   c5_amended_secret_check.2.1 _ _ _ _ (by decide)⟩

/-- C6 counterexample: two consecutive `/tv_webhook` order-intent signals
carrying the same `order_id` are both processed — the second is not
recognized as a duplicate (status `ok`, not a duplicate outcome) and
`place_order` is invoked once per call, i.e. twice across the two calls. -/
theorem c6_counterexample :
    let p : A203.TVPayload :=
      { secret := "letmein", strategy_id := "S1",
        order_id := "entry_long_001", trigger_type := "", comment := "",
        contracts := none, symbol := "ETHUSDT", price := some 2000,
        capital_percent := some 10, time := "t" }
    let r1 := A203.tvWebhook "letmein" 1000 [] p
    let r2 := A203.tvWebhook "letmein" 1000 r1.log p
    r1.orders.length = 1 ∧ r2.orders.length = 1 ∧ r2.status = "ok"
      ∧ r2.status ≠ "duplicate" := by
  have h1 : strStartsWithStr "entry_long_001" "entry_" = true := by decide
  have h2 : strContainsStr "entry_long_001" "long" = true := by decide
  have h3 : strEndsWithStr "ETHUSDT" ".P" = false := by decide
  norm_num [A203.tvWebhook, A203.stripSymbolSuffix, h1, h2, h3, pyRound2]
  all_goals decide

/-- C6 amended: the code performs no deduplication — the status, the orders
placed, the computed quantity and the recorded `ret_msg` of a `/tv_webhook`
call are independent of the previously recorded events, so a repeated
`order_id` is processed exactly like the first occurrence and the
order-placement function runs once per valid entry signal. -/
theorem c6_amended_no_dedup (ws : String) (eqv : ℚ)
    (log : List A203.TVLogEntry) (p : A203.TVPayload) :
    (A203.tvWebhook ws eqv log p).status
        = (A203.tvWebhook ws eqv [] p).status
    ∧ (A203.tvWebhook ws eqv log p).orders
        = (A203.tvWebhook ws eqv [] p).orders
    ∧ (A203.tvWebhook ws eqv log p).qty = (A203.tvWebhook ws eqv [] p).qty
    ∧ (A203.tvWebhook ws eqv log p).retMsg
        = (A203.tvWebhook ws eqv [] p).retMsg := by
  by_cases hsec : p.secret = ws
  · simp [A203.tvWebhook, hsec]
  · simp [A203.tvWebhook, hsec]

/-- C8: for an entry signal with positive price and capital percent (the
no-explicit-size path), `/tv_webhook` computes
`qty = round(equity * capital_percent / 100 / price, 2)`; an order is placed
exactly when `qty` reaches the 0.01 exchange minimum, otherwise the call is
recorded as "qty too small" and no order goes out. a101's handler likewise
skips an explicit position size of 0 without calling `place_order`. -/
theorem c8_quantity_and_minimum :
    (∀ (ws : String) (eqv : ℚ) (log : List A203.TVLogEntry)
       (p : A203.TVPayload),
       p.secret = ws → strStartsWithStr p.order_id "entry_" = true →
       0 < p.price.getD 0 → 0 < p.capital_percent.getD 0 →
       (A203.tvWebhook ws eqv log p).qty
           = pyRound2 (eqv * p.capital_percent.getD 0 / 100 / p.price.getD 0)
       ∧ (pyRound2 (eqv * p.capital_percent.getD 0 / 100 / p.price.getD 0)
             < 0.01 →
            (A203.tvWebhook ws eqv log p).orders = []
            ∧ (A203.tvWebhook ws eqv log p).retMsg = some "qty too small")
       ∧ (0.01 ≤ pyRound2 (eqv * p.capital_percent.getD 0 / 100
             / p.price.getD 0) →
            (A203.tvWebhook ws eqv log p).orders =
              [{ symbol := A203.stripSymbolSuffix p.symbol,
                 side := if strContainsStr p.order_id "long" then "Buy"
                         else "Sell",
                 qty := pyRound2 (eqv * p.capital_percent.getD 0 / 100
                   / p.price.getD 0) }]))
    ∧ (∀ (cfg : A101.Config) (st : A101.State) (p : A101.WebhookPayload)
         (d : A101.WebhookPayloadData),
       p.secret = some cfg.webhookSecret →
       (p.signal_type = "entry_long" ∨ p.signal_type = "entry_short") →
       p.data = some d → d.position_size = 0 →
       (st.strategyStatus p.strategy_id).getD false = false →
       A101.webhookHandler cfg st p =
         { state := st,
           response := some { status := "ok",
                              message := some "倉量為 0 不處理" },
           orders := [] }) := by
  constructor
  · intro ws eqv log p hsec hentry hprice hcap
    by_cases hq : (0.01 : ℚ)
        ≤ pyRound2 (eqv * p.capital_percent.getD 0 / 100 / p.price.getD 0)
    · refine ⟨?_, ?_, ?_⟩
      · simp [A203.tvWebhook, hsec, hentry, hprice, hcap, hq]
      · intro hlt
        exact absurd hq (not_le.mpr hlt)
      · intro _
        simp [A203.tvWebhook, hsec, hentry, hprice, hcap, hq]
    · refine ⟨?_, ?_, ?_⟩
      · simp [A203.tvWebhook, hsec, hentry, hprice, hcap, hq]
      · intro _
        constructor <;> simp [A203.tvWebhook, hsec, hentry, hprice, hcap, hq]
      · intro hge
        exact absurd hge hq
  · intro cfg st p d hsec hso hd hsize hnp
    rcases hso with h | h <;>
      simp [A101.webhookHandler, hsec, h, hd, hsize, hnp]

/-- Witness for C8: the spec's example — equity 1000, capital percent 10,
price 2000 — yields quantity 0.05 and the order goes out with that size. -/
theorem c8_witness :
    (A203.tvWebhook "letmein" 1000 []
      { secret := "letmein", strategy_id := "S1",
        order_id := "entry_long_002", trigger_type := "", comment := "",
        contracts := none, symbol := "ETHUSDT", price := some 2000,
        capital_percent := some 10, time := "t" }).qty = 0.05
    ∧ (A203.tvWebhook "letmein" 1000 []
      { secret := "letmein", strategy_id := "S1",
        order_id := "entry_long_002", trigger_type := "", comment := "",
        contracts := none, symbol := "ETHUSDT", price := some 2000,
        capital_percent := some 10, time := "t" }).orders =
      [{ symbol := "ETHUSDT", side := "Buy", qty := 0.05 }] := by
  have h := c8_quantity_and_minimum.1 "letmein" 1000 []
    { secret := "letmein", strategy_id := "S1",
      order_id := "entry_long_002", trigger_type := "", comment := "",
      contracts := none, symbol := "ETHUSDT", price := some 2000,
      capital_percent := some 10, time := "t" }
    rfl (by decide) (by norm_num) (by norm_num)
  have hq : pyRound2 ((1000 : ℚ) * (some (10:ℚ)).getD 0 / 100
      / (some (2000:ℚ)).getD 0) = 0.05 := by
    norm_num [pyRound2]
  have hstr : A203.stripSymbolSuffix "ETHUSDT" = "ETHUSDT" := by decide
  have hlong : strContainsStr "entry_long_002" "long" = true := by decide
  constructor
  · rw [h.1, hq]
  · have h3 := h.2.2 (by rw [hq]; norm_num)
    rw [h3, hq, hstr, hlong]
    simp

/-- For every single handled signal, the recorded peak equity of every
strategy id does not decrease. -/
lemma maxEquity_step_le (cfg : A101.Config) (st : A101.State)
    (p : A101.WebhookPayload) (sid : String) :
    (st.maxEquity sid).getD 0
      ≤ ((A101.webhookHandler cfg st p).state.maxEquity sid).getD 0 := by
  obtain ⟨sid', ty, peq, sym, oty, dat, sec⟩ := p
  cases peq <;> cases dat <;>
    simp only [A101.webhookHandler] <;>
    split_ifs <;>
    simp_all [updMap] <;>
    split_ifs <;>
    simp_all <;>
    linarith

/-- C9: along every sequence of handled signals, the recorded peak equity of
every strategy id is monotonically non-decreasing — stated per step and for
whole runs. -/
theorem c9_peak_equity_monotone :
    (∀ (cfg : A101.Config) (st : A101.State) (p : A101.WebhookPayload)
       (sid : String),
       (st.maxEquity sid).getD 0
         ≤ ((A101.webhookHandler cfg st p).state.maxEquity sid).getD 0)
    ∧ (∀ (cfg : A101.Config) (st : A101.State)
         (ps : List A101.WebhookPayload) (sid : String),
       (st.maxEquity sid).getD 0
         ≤ ((A101.runState cfg st ps).maxEquity sid).getD 0) := by
  refine ⟨maxEquity_step_le, ?_⟩
  intro cfg st ps
  induction ps generalizing st with
  | nil => intro sid; exact le_refl _
  | cons p ps ih =>
    intro sid
    calc (st.maxEquity sid).getD 0
        ≤ (((A101.webhookHandler cfg st p).state).maxEquity sid).getD 0 :=
          maxEquity_step_le cfg st p sid
      _ ≤ _ := ih _ sid

/-- One handler step preserves strict positivity of every stored peak
equity: a peak is only ever written when the new equity strictly exceeds
the previous peak, which is at least the default 0. -/
lemma maxEquity_pos_step (cfg : A101.Config) (st : A101.State)
    (p : A101.WebhookPayload)
    (h : ∀ sid v, st.maxEquity sid = some v → 0 < v) :
    ∀ sid v, (A101.webhookHandler cfg st p).state.maxEquity sid = some v →
      0 < v := by
  intro sid v
  by_cases hsec : p.secret ≠ some cfg.webhookSecret
  · simp only [A101.webhookHandler, if_pos hsec]
    exact h sid v
  · by_cases hty : p.signal_type = "equity_update"
    · cases hpe : p.equity with
      | none =>
        simp only [A101.webhookHandler, if_neg hsec, if_pos hty, hpe]
        exact h sid v
      | some eqv =>
        by_cases hgt : eqv > (st.maxEquity p.strategy_id).getD 0
        · simp only [A101.webhookHandler, if_neg hsec, if_pos hty, hpe]
          rw [if_pos hgt]
          simp only [updMap]
          by_cases hs : sid = p.strategy_id
          · rw [if_pos hs]
            intro hv
            have hev : eqv = v := by simpa using hv
            subst hev
            rcases hm : st.maxEquity p.strategy_id with _ | w
            · rw [hm] at hgt
              simpa using hgt
            · rw [hm] at hgt
              simp only [Option.getD_some] at hgt
              exact lt_trans (h _ w hm) hgt
          · rw [if_neg hs]
            exact h sid v
        · simp only [A101.webhookHandler, if_neg hsec, if_pos hty, hpe]
          rw [if_neg hgt]
          split_ifs <;> exact h sid v
    · by_cases hrs : p.signal_type = "reset"
      · simp only [A101.webhookHandler, if_neg hsec, if_neg hty, if_pos hrs]
        exact h sid v
      · by_cases hpa : (st.strategyStatus p.strategy_id).getD false = true
        · simp only [A101.webhookHandler, if_neg hsec, if_neg hty, if_neg hrs]
          rw [if_pos hpa]
          exact h sid v
        · simp only [A101.webhookHandler, if_neg hsec, if_neg hty, if_neg hrs]
          rw [if_neg hpa]
          split_ifs
          · cases hd : p.data with
            | none => exact h sid v
            | some d =>
              dsimp only
              split_ifs <;> exact h sid v
          · exact h sid v

/-- Running from the empty initial state (or any state whose stored peaks
are positive) keeps every stored peak positive. -/
lemma maxEquity_pos_run (cfg : A101.Config) (ps : List A101.WebhookPayload) :
    ∀ st : A101.State, (∀ sid v, st.maxEquity sid = some v → 0 < v) →
      ∀ sid v, (A101.runState cfg st ps).maxEquity sid = some v → 0 < v := by
  induction ps with
  | nil => intro st h; exact h
  | cons p ps ih =>
    intro st h
    exact ih _ (maxEquity_pos_step cfg st p h)

/-- C10: after any sequence of signals processed from process start, every
stored peak equity is strictly positive — so the drawdown division by the
peak of an existing record never divides by zero. -/
theorem c10_stored_peak_positive (cfg : A101.Config)
    (ps : List A101.WebhookPayload) (sid : String) (v : ℚ)
    (h : (A101.runState cfg A101.initState ps).maxEquity sid = some v) :
    0 < v :=
  maxEquity_pos_run cfg ps A101.initState
    (by intro s w hw; simp [A101.initState] at hw) sid v h

/-- Witness for C10: a single equity update of 50 stores peak 50, which is
positive. -/
theorem c10_witness :
    (A101.runState A101.defaultConfig A101.initState
      [{ strategy_id := "S1", signal_type := "equity_update",
         equity := some 50, symbol := none, order_type := none,
         data := none, secret := some "abc123xyz" }]).maxEquity "S1"
      = some 50
    ∧ (0 : ℚ) < 50 := by
  have hrun : (A101.runState A101.defaultConfig A101.initState
      [{ strategy_id := "S1", signal_type := "equity_update",
         equity := some 50, symbol := none, order_type := none,
         data := none, secret := some "abc123xyz" }]).maxEquity "S1"
      = some 50 := by
    norm_num [A101.runState, A101.webhookHandler, A101.initState,
      A101.defaultConfig, updMap]
  exact ⟨hrun, c10_stored_peak_positive A101.defaultConfig _ "S1" 50 hrun⟩
